import Mathlib

/-!
Shallow embedding of the `Executor` execution harness and its `IbexRun`
batch-submission specialization.

Conventions of the embedding:
* Python integers are modelled by `Nat` (all quantities involved — item
  counts, slot counts, times — are non-negative in the source); exit codes,
  which may be negative, by `Int`.
* `int(np.ceil(a / b))` is modelled by exact ceiling division on `Nat`
  (`npCeilDiv`); this agrees with the floating-point computation on the
  integer ranges the program is used with.
* Constructors or calls that would raise in Python (`ZeroDivisionError`,
  `AttributeError`) are modelled with `Option`/`Except`.
* The filesystem effects the lifecycle performs are modelled by an explicit
  state `FS` (existence of the temporary directory and output directory,
  and the content of the capture file), threaded through the steps.
* `Executor.run` is modelled as a total function from the injected outcome
  of the `execute` step (launch error / memory error / completed process)
  to the returned value or raised error, the final filesystem state, and a
  trace of the lifecycle steps executed.
-/

/-- Embeds Python formatting of a natural with a two-digit zero-padded field,
as in the f-string fields of `IbexRun.time_str`. -/
def pad2 (n : Nat) : String :=
  if n < 10 then "0" ++ toString n else toString n

/-- Embeds `int(np.ceil(a / b))` for natural `a` and positive natural `b`
as exact ceiling division. Only used under guards that keep `b` positive,
mirroring where Python would otherwise raise `ZeroDivisionError`. -/
def npCeilDiv (a b : Nat) : Nat :=
  (a + b - 1) / b

/-- Embeds `IbexRun.time_str` (src/executor/ibex.py): total minutes are
`commands_per_job * t_per_command`; hours are the floor of division by 60,
minutes the remainder (`np.ceil` of an integer remainder is the identity);
rendered as `hh:mm:00` with two-digit zero-padded fields. -/
def time_str (commands_per_job t_per_command : Nat) : String :=
  let total_minutes := commands_per_job * t_per_command
  let hours := total_minutes / 60
  let minutes := total_minutes % 60
  pad2 hours ++ ":" ++ pad2 minutes ++ ":00"

/-- Constructor arguments of `IbexRun.__init__` (src/executor/ibex.py). -/
structure IbexParams where
  time_per_command : Nat
  out_ibex : String
  ncommands : Nat
  jobname : String
  partition : String
  ntasks : Nat
  cpus_per_task : Nat
  mem_per_cpu : Nat
  max_jobs : Nat
deriving DecidableEq

/-- Fields computed by `IbexRun.__init__` (src/executor/ibex.py). -/
structure IbexRunData where
  params : IbexParams
  commands_per_job : Nat
  njobs : Nat
  time_per_job : String
  script_file : String
deriving DecidableEq

/-- Embeds `IbexRun.__init__` (src/executor/ibex.py lines 61-81):
`commands_per_job = int(np.ceil(ncommands / max_jobs))`,
`njobs = int(np.ceil(ncommands / commands_per_job))`,
`time_per_job = time_str(commands_per_job, time_per_command)`,
`script_file = out_ibex / "script.sh"`.
Returns `none` exactly where Python raises `ZeroDivisionError`: when
`max_jobs = 0`, or when `commands_per_job = 0` (i.e. `ncommands = 0`). -/
def mkIbexRun (p : IbexParams) : Option IbexRunData :=
  if p.max_jobs = 0 then none
  else
    let cpj := npCeilDiv p.ncommands p.max_jobs
    if cpj = 0 then none
    else some
      { params := p
        commands_per_job := cpj
        njobs := npCeilDiv p.ncommands cpj
        time_per_job := time_str cpj p.time_per_command
        script_file := p.out_ibex ++ "/script.sh" }

/-- Embeds the script text assembled in `IbexRun.prepare`
(src/executor/ibex.py lines 112-130), literal for literal. -/
def ibexScript (d : IbexRunData) : String :=
  "#!/bin/bash\n" ++
  "#SBATCH --job-name=" ++ d.params.jobname ++ "\n" ++
  "#SBATCH --partition=" ++ d.params.partition ++ "\n" ++
  "#SBATCH --output=" ++ d.params.out_ibex ++ "/%J.out\n" ++
  "#SBATCH --time=" ++ d.time_per_job ++ "\n" ++
  "#SBATCH --ntasks=" ++ toString d.params.ntasks ++ "\n" ++
  "#SBATCH --cpus-per-task=" ++ toString d.params.cpus_per_task ++ "\n" ++
  "#SBATCH --mem-per-cpu=" ++ toString d.params.mem_per_cpu ++ "G\n" ++
  "#SBATCH --array=0-" ++ toString (d.njobs - 1) ++ "\n" ++
  "\n" ++
  "echo \x27Hello world!\x27\n"

/-- The write performed by `IbexRun.prepare`: the script text is written to
the fixed path `script_file` (src/executor/ibex.py lines 134-135). -/
def ibexPrepareWrite (d : IbexRunData) : String × String :=
  (d.script_file, ibexScript d)

/-- The eight `#SBATCH` directive lines of the script, in the order they are
emitted, as a list (used to state the layout claim about `ibexScript`). -/
def scriptDirectives (d : IbexRunData) : List String :=
  ["#SBATCH --job-name=" ++ d.params.jobname,
   "#SBATCH --partition=" ++ d.params.partition,
   "#SBATCH --output=" ++ d.params.out_ibex ++ "/%J.out",
   "#SBATCH --time=" ++ d.time_per_job,
   "#SBATCH --ntasks=" ++ toString d.params.ntasks,
   "#SBATCH --cpus-per-task=" ++ toString d.params.cpus_per_task,
   "#SBATCH --mem-per-cpu=" ++ toString d.params.mem_per_cpu ++ "G",
   "#SBATCH --array=0-" ++ toString (d.njobs - 1)]

/-- Embeds the semantics of `re.search(r"\d+", s)`: the first contiguous run
of decimal digits in the character list, or `none` when no digit occurs. -/
def firstDigitRun : List Char → Option (List Char)
  | [] => none
  | c :: cs =>
    if c.isDigit then some (c :: cs.takeWhile Char.isDigit)
    else firstDigitRun cs

/-- Output-capture policy: embeds the `catch_out` argument of
`Executor.__init__`, which is `False`, `True`, or a file-name string. -/
inductive CatchOut where
  | off
  | on
  | named (s : String)
deriving DecidableEq

/-- Python truthiness of the `catch_out` value (an empty string is falsy). -/
def CatchOut.truthy : CatchOut → Bool
  | .off => false
  | .on => true
  | .named s => s != ""

/-- The constructor configuration of `Executor` that the lifecycle reads
(src/executor/executor.py lines 69-76). Directory arguments are kept
abstractly: only whether the caller supplied them matters to the model. -/
structure Config where
  program : String
  args : List String
  catch_out : CatchOut
  keep_tempdir : Bool
  tempdir_given : Bool
  dir_out_given : Bool
  verbose : Bool
deriving DecidableEq

/-- Embeds `self.f_stdout` (src/executor/executor.py lines 82-85): the
capture-file name relative to `cwd`. When `catch_out` is `False` the Python
attribute is never set; the value returned here is then never consulted,
because every write to it is guarded by `catch_out` truthiness. -/
def Config.f_stdout (cfg : Config) : String :=
  match cfg.catch_out with
  | .on => cfg.program ++ ".out"
  | .named s => s
  | .off => ""

/-- The filesystem state the lifecycle manipulates: existence of the
temporary directory, existence of the output directory, and the capture
file (name and content) if one has been written. -/
structure FS where
  tempdirExists : Bool
  dirOutExists : Bool
  outFile : Option (String × String)
deriving DecidableEq

/-- Lifecycle steps, recorded in a trace by the `run` model. -/
inductive Event where
  | prepare
  | execute
  | classify
  | finish
  | fail
  | cleanup
deriving DecidableEq, BEq

/-- Outcome of the `execute` step, injected into the `run` model:
an OS-level launch/communication error (Python `OSError`, carrying
`strerror`), a `MemoryError`, or a completed process with its exit code and
captured combined output. -/
inductive ExecResult where
  | osError (strerror : String)
  | memError
  | completed (returncode : Int) (stdout : String)
deriving DecidableEq

/-- The exceptions `run()` can propagate: `RunError` with its message,
`CalledProcessError` carrying exit code and captured output,
`MemoryError`, and the `AttributeError` raised by `IbexRun.finish` when the
submission reply contains no digit. -/
inductive PyError where
  | runError (msg : String)
  | calledProcessError (returncode : Int) (output : String)
  | memoryError
  | attributeError
deriving DecidableEq

/-- Python truthiness of the value returned by `isFailed` (`False` or a
message string; an empty string is falsy). -/
def truthyMsg : Option String → Bool
  | none => false
  | some s => s != ""

/-- Embeds the `error_string` composed in `Executor.fail`
(src/executor/executor.py lines 165-172); the returncode/stdout block is
present only when `completed_process` is set. -/
def errorString (cfg : Config) (cp : Option (Int × String)) : String :=
  "\n" ++ cfg.program ++ " EXECUTION FAILED.\n" ++
  "Command: " ++ String.intercalate (" ") cfg.args ++ "\n" ++
  match cp with
  | some rc_out =>
      "Returncode: " ++ toString rc_out.1 ++ "\n" ++ "stdout: \n" ++ rc_out.2
  | none => ""

/-- Embeds `Executor.fail` (src/executor/executor.py lines 160-184): write
the error string to the capture file when `catch_out` is truthy, then raise
`RunError(failed_message)` when a truthy `failed_message` is set, and the
stored error instance otherwise. Returns the raised error together with the
filesystem state after the write. -/
def Executor_fail (cfg : Config) (cp : Option (Int × String))
    (failed_message : Option String) (error : PyError) (st : FS) :
    PyError × FS :=
  let st1 :=
    if cfg.catch_out.truthy then
      { st with outFile := some (cfg.f_stdout, errorString cfg cp) }
    else st
  if truthyMsg failed_message then
    (PyError.runError (failed_message.getD ""), st1)
  else (error, st1)

/-- Embeds the default `Executor.finish` (src/executor/executor.py lines
201-218): write the captured output to the capture file when `catch_out` is
truthy and return the triple `(args, returncode, stdout)`. -/
def Executor_finish (cfg : Config) (returncode : Int) (stdout : String)
    (st : FS) : Except PyError (List String × Int × String) × FS :=
  let st1 :=
    if cfg.catch_out.truthy then
      { st with outFile := some (cfg.f_stdout, stdout) }
    else st
  (Except.ok (cfg.args, returncode, stdout), st1)

/-- Embeds the default `Executor.prepare` (src/executor/executor.py lines
87-104): a caller-supplied temporary directory is created if absent,
otherwise a fresh one is made with `tempfile.mkdtemp`; either way it exists
afterwards. The output directory, when supplied, is created if absent. -/
def Executor_prepare (cfg : Config) (st : FS) : FS :=
  let st1 :=
    if cfg.tempdir_given then
      (if st.tempdirExists then st else { st with tempdirExists := true })
    else { st with tempdirExists := true }
  if cfg.dir_out_given && !st1.dirOutExists then
    { st1 with dirOutExists := true }
  else st1

/-- Embeds `Executor.cleanup` (src/executor/executor.py lines 221-229): if
the temporary directory exists and `keep_tempdir` is false, remove it. -/
def Executor_cleanup (cfg : Config) (st : FS) : FS :=
  if st.tempdirExists && !cfg.keep_tempdir then
    { st with tempdirExists := false }
  else st

/-- Result of one modelled `run()` call: the returned value or raised
error, the final filesystem state, and the trace of executed steps. -/
structure RunOut (A : Type) where
  result : Except PyError A
  fs : FS
  trace : List Event

/-- Embeds `Executor.run` (src/executor/executor.py lines 121-157),
parametrized by the `finish` hook so that specializations such as `IbexRun`
reuse the same state machine. Control flow of the source, branch by branch:
an `OSError` from `execute` is re-raised as `RunError` wrapping `strerror`
(no `fail()` call); a `MemoryError` goes through `fail()` with no completed
process; a non-zero exit code makes `check_returncode` raise
`CalledProcessError(returncode, output)`, which goes through `fail()` and
is re-raised as is; on exit code 0 the `isFailed` result is consulted: if
truthy, `fail()` raises `RunError` with exactly that message, otherwise
`finish` runs. `cleanup` runs in every branch (the `finally` block). -/
def Executor_runWith {A : Type}
    (finishFn : Config → Int → String → FS → Except PyError A × FS)
    (cfg : Config) (exec : ExecResult) (isFailedRes : Option String)
    (st0 : FS) : RunOut A :=
  let st1 := Executor_prepare cfg st0
  match exec with
  | .osError strerror =>
      { result := Except.error (PyError.runError
          ("Couldn\x27t run or communicate with external program: " ++ strerror))
        fs := Executor_cleanup cfg st1
        trace := [Event.prepare, Event.execute, Event.cleanup] }
  | .memError =>
      let r := Executor_fail cfg none none PyError.memoryError st1
      { result := Except.error r.1
        fs := Executor_cleanup cfg r.2
        trace := [Event.prepare, Event.execute, Event.fail, Event.cleanup] }
  | .completed rc out =>
      if rc = 0 then
        if truthyMsg isFailedRes then
          let r := Executor_fail cfg (some (rc, out)) isFailedRes
            (PyError.runError "") st1
          { result := Except.error r.1
            fs := Executor_cleanup cfg r.2
            trace := [Event.prepare, Event.execute, Event.classify,
              Event.fail, Event.cleanup] }
        else
          let r := finishFn cfg rc out st1
          { result := r.1
            fs := Executor_cleanup cfg r.2
            trace := [Event.prepare, Event.execute, Event.classify,
              Event.finish, Event.cleanup] }
      else
        let r := Executor_fail cfg (some (rc, out)) none
          (PyError.calledProcessError rc out) st1
        { result := Except.error r.1
          fs := Executor_cleanup cfg r.2
          trace := [Event.prepare, Event.execute, Event.classify,
            Event.fail, Event.cleanup] }

/-- `Executor.run` with the default `finish` hook. -/
def Executor_run (cfg : Config) (exec : ExecResult)
    (isFailedRes : Option String) (st0 : FS) :
    RunOut (List String × Int × String) :=
  Executor_runWith Executor_finish cfg exec isFailedRes st0

/-- Embeds `IbexRun.finish` (src/executor/ibex.py lines 138-142):
`re.search(r"\d+", stdout).group()`. When the reply contains no digit,
`re.search` returns `None` and the `.group()` call raises
`AttributeError`; modelled as `Except.error`. -/
def IbexRun_finish (_cfg : Config) (_returncode : Int) (stdout : String)
    (st : FS) : Except PyError String × FS :=
  (match firstDigitRun stdout.toList with
   | some ds => Except.ok (String.mk ds)
   | none => Except.error PyError.attributeError, st)

/-- `Executor.run` as inherited by `IbexRun`: same state machine, with the
job-identifier-scraping `finish` hook (and the default `isFailed`, which
returns `False`, i.e. `none`). -/
def IbexRun_run (cfg : Config) (exec : ExecResult) (st0 : FS) :
    RunOut String :=
  Executor_runWith IbexRun_finish cfg exec none st0

/-- Concrete parameter set from the BatchPlanner round-trip example:
1990 commands, 1990 maximum jobs, one minute per command. -/
def p1990 : IbexParams :=
  ⟨1, "out_ibex", 1990, "IbexRun", "batch", 1, 1, 2, 1990⟩

/-- The `IbexRun` data computed from `p1990`. -/
def d1990 : IbexRunData :=
  ⟨p1990, 1, 1990, "00:01:00", "out_ibex" ++ "/script.sh"⟩

/-- A small concrete parameter set (one command) for evaluation. -/
def pOne : IbexParams :=
  ⟨1, "out", 1, "j", "debug", 1, 1, 2, 1990⟩

/-- The `IbexRun` data computed from `pOne`. -/
def dOne : IbexRunData :=
  ⟨pOne, 1, 1, "00:01:00", "out" ++ "/script.sh"⟩

/-- A concrete configuration with default output capture, used to evaluate
the lifecycle theorems at explicit inputs. -/
def cfgW : Config :=
  ⟨"ls", ["ls", "."], CatchOut.on, false, true, false, false⟩

/-- A concrete configuration with capture off, a caller-supplied temporary
directory and `keep_tempdir = false`. -/
def cfgW2 : Config :=
  ⟨"ls", ["ls", "."], CatchOut.off, false, true, false, false⟩

/-- An initial filesystem state with no temporary directory. -/
def fsW : FS := ⟨false, false, none⟩

/-- An initial filesystem state whose temporary directory pre-exists. -/
def fsW2 : FS := ⟨true, false, none⟩

theorem le_mul_npCeilDiv {a c : Nat} (hc : 0 < c) : a ≤ c * npCeilDiv a c := by
  rcases a with _ | n
  · exact Nat.zero_le _
  · unfold npCeilDiv
    have h0 : n + 1 + c - 1 = n + c := by omega
    rw [h0, Nat.add_div_right n hc, Nat.mul_add, Nat.mul_one]
    have hdm := Nat.div_add_mod n c
    have hmod := Nat.mod_lt n hc
    generalize hq : n / c = q at hdm
    generalize hr : n % c = r at hdm hmod
    omega

theorem npCeilDiv_le_of_le_mul {a c m : Nat} (hc : 0 < c) (h : a ≤ c * m) :
    npCeilDiv a c ≤ m := by
  unfold npCeilDiv
  have h1 : a + c - 1 < (m + 1) * c := by
    have h2 : (m + 1) * c = c * m + c := by ring
    rw [h2]
    omega
  have h3 := (Nat.div_lt_iff_lt_mul hc).mpr h1
  omega

theorem tempdirExists_after_prepare (cfg : Config) (st : FS) :
    (Executor_prepare cfg st).tempdirExists = true := by
  unfold Executor_prepare
  rcases st with ⟨te, de, f⟩
  cases hg : cfg.tempdir_given <;> cases te <;> cases hd : cfg.dir_out_given
    <;> cases de <;> simp [hg, hd]

theorem tempdirExists_after_cleanup (cfg : Config) (st : FS)
    (h : st.tempdirExists = true) :
    (Executor_cleanup cfg st).tempdirExists = cfg.keep_tempdir := by
  unfold Executor_cleanup
  rcases st with ⟨te, de, f⟩
  simp only at h
  subst h
  cases hk : cfg.keep_tempdir <;> simp [hk]

theorem tempdirExists_after_fail (cfg : Config) (cp : Option (Int × String))
    (fm : Option String) (e : PyError) (st : FS) :
    ((Executor_fail cfg cp fm e st).2).tempdirExists = st.tempdirExists := by
  unfold Executor_fail
  split <;> split <;> rfl

theorem tempdirExists_after_finish (cfg : Config) (rc : Int) (out : String)
    (st : FS) :
    ((Executor_finish cfg rc out st).2).tempdirExists = st.tempdirExists := by
  unfold Executor_finish
  split <;> rfl

theorem outFile_after_cleanup (cfg : Config) (st : FS) :
    (Executor_cleanup cfg st).outFile = st.outFile := by
  unfold Executor_cleanup
  split <;> rfl

theorem runWith_cleanup_props {A : Type}
    (fin : Config → Int → String → FS → Except PyError A × FS)
    (hfin : ∀ c rc out s, ((fin c rc out s).2).tempdirExists = s.tempdirExists)
    (cfg : Config) (exec : ExecResult) (ifr : Option String) (st : FS) :
    (Executor_runWith fin cfg exec ifr st).trace.count Event.cleanup = 1
    ∧ (Executor_runWith fin cfg exec ifr st).fs.tempdirExists
        = cfg.keep_tempdir := by
  have hprep := tempdirExists_after_prepare cfg st
  cases exec with
  | osError e =>
      exact ⟨by rfl, tempdirExists_after_cleanup cfg _ hprep⟩
  | memError =>
      refine ⟨by rfl, ?_⟩
      show (Executor_cleanup cfg
        (Executor_fail cfg none none PyError.memoryError
          (Executor_prepare cfg st)).2).tempdirExists = _
      exact tempdirExists_after_cleanup cfg _
        (by rw [tempdirExists_after_fail]; exact hprep)
  | completed rc out =>
      by_cases h0 : rc = 0
      · subst h0
        by_cases ht : truthyMsg ifr = true
        · refine ⟨?_, ?_⟩
          · simp [Executor_runWith, ht]
            decide
          · simp [Executor_runWith, ht]
            exact tempdirExists_after_cleanup cfg _
              (by rw [tempdirExists_after_fail]; exact hprep)
        · refine ⟨?_, ?_⟩
          · simp [Executor_runWith, ht]
            decide
          · simp [Executor_runWith, ht]
            exact tempdirExists_after_cleanup cfg _
              (by rw [hfin]; exact hprep)
      · refine ⟨?_, ?_⟩
        · simp [Executor_runWith, h0]
          decide
        · simp [Executor_runWith, h0]
          exact tempdirExists_after_cleanup cfg _
            (by rw [tempdirExists_after_fail]; exact hprep)

/-- C1: for every `IbexRun` successfully constructed with total item count
`ncommands` and maximum slot count `max_jobs`, the computed items-per-slot
equals `ceil(ncommands / max_jobs)` clamped to a minimum of 1, and the
computed slot count equals `ceil(ncommands / items_per_slot)`; in
particular, for `ncommands = 1990`, `max_jobs = 1990`,
`time_per_command = 1`, this yields `items_per_slot = 1`, slot count 1990,
and time budget "00:01:00". -/
theorem C1_batch_plan_formulas :
    (∀ p d, mkIbexRun p = some d →
      d.commands_per_job = max 1 (npCeilDiv p.ncommands p.max_jobs)
      ∧ d.njobs = npCeilDiv p.ncommands d.commands_per_job)
    ∧ (∃ d, mkIbexRun p1990 = some d ∧ d.commands_per_job = 1
        ∧ d.njobs = 1990 ∧ d.time_per_job = "00:01:00") := by
  constructor
  · intro p d h
    simp only [mkIbexRun] at h
    split at h
    · exact Option.noConfusion h
    · split at h
      · exact Option.noConfusion h
      · rename_i hcpj
        rw [Option.some.injEq] at h
        subst h
        refine ⟨?_, rfl⟩
        show npCeilDiv p.ncommands p.max_jobs = _
        rw [Nat.max_eq_right (Nat.pos_of_ne_zero hcpj)]
  · exact ⟨d1990, by decide, rfl, rfl, rfl⟩

/-- Witness for C1 at the concrete input `p1990`. -/
theorem C1_batch_plan_formulas_witness :
    d1990.commands_per_job = max 1 (npCeilDiv 1990 1990)
    ∧ d1990.njobs = npCeilDiv 1990 d1990.commands_per_job :=
  C1_batch_plan_formulas.1 p1990 d1990 (by decide)

/-- C2: for every `IbexRun` successfully constructed from a total item count
and a positive maximum slot count, the batch plan satisfies
`slot_count ≤ max_jobs`, `items_per_slot * slot_count ≥ ncommands`, and
`items_per_slot ≥ 1`. (Successful construction already forces
`max_jobs > 0`, since `max_jobs = 0` raises `ZeroDivisionError`.) -/
theorem C2_batch_plan_invariants (p : IbexParams) (d : IbexRunData)
    (hpos : 0 < p.max_jobs) (h : mkIbexRun p = some d) :
    d.njobs ≤ p.max_jobs
    ∧ p.ncommands ≤ d.commands_per_job * d.njobs
    ∧ 1 ≤ d.commands_per_job := by
  simp only [mkIbexRun] at h
  split at h
  · exact Option.noConfusion h
  · split at h
    · exact Option.noConfusion h
    · rename_i hm hcpj
      rw [Option.some.injEq] at h
      subst h
      have hcpos : 0 < npCeilDiv p.ncommands p.max_jobs :=
        Nat.pos_of_ne_zero hcpj
      refine ⟨?_, ?_, hcpos⟩
      · show npCeilDiv p.ncommands (npCeilDiv p.ncommands p.max_jobs) ≤ _
        apply npCeilDiv_le_of_le_mul hcpos
        have hle := le_mul_npCeilDiv (a := p.ncommands) hpos
        rw [Nat.mul_comm] at hle
        exact hle
      · exact le_mul_npCeilDiv hcpos

/-- Witness for C2 at the concrete input `p1990`. -/
theorem C2_batch_plan_invariants_witness :
    d1990.njobs ≤ p1990.max_jobs
    ∧ p1990.ncommands ≤ d1990.commands_per_job * d1990.njobs
    ∧ 1 ≤ d1990.commands_per_job :=
  C2_batch_plan_invariants p1990 d1990 (by decide) (by decide)

/-- C6: for all naturals `commands_per_job` and `t_per_command`,
`time_str` renders `pad2 HH ++ ":" ++ pad2 MM ++ ":00"` where
`m = commands_per_job * t_per_command`, `HH = floor(m / 60)` and
`MM = ceil(m mod 60)` (the ceiling of an integer-valued rational is that
integer, so `MM = m mod 60`). -/
theorem C6_time_str_format (c t : Nat) :
    time_str c t =
      pad2 (Nat.floor (((c * t : Nat) : ℚ) / ((60 : Nat) : ℚ))) ++ ":"
      ++ pad2 (Nat.ceil (((c * t % 60 : Nat) : ℚ))) ++ ":00" := by
  rw [Nat.ceil_natCast, Nat.floor_div_nat, Nat.floor_natCast]
  rfl

/-- C3: whenever the external program is launched and exits with a non-zero
code `c`, `run()` raises the distinct non-zero-exit error
(`CalledProcessError`) carrying exactly `c` and the captured combined
output, and this error is not wrapped into the generic `RunError`. -/
theorem C3_nonzero_exit_error (cfg : Config) (ifr : Option String) (st : FS)
    (c : Int) (out : String) (h : c ≠ 0) :
    (Executor_run cfg (ExecResult.completed c out) ifr st).result
      = Except.error (PyError.calledProcessError c out)
    ∧ ∀ m, (Executor_run cfg (ExecResult.completed c out) ifr st).result
      ≠ Except.error (PyError.runError m) := by
  constructor
  · simp [Executor_run, Executor_runWith, Executor_fail, truthyMsg, h]
  · intro m
    simp [Executor_run, Executor_runWith, Executor_fail, truthyMsg, h]

/-- Witness for C3 at exit code 2. -/
theorem C3_nonzero_exit_error_witness :
    (Executor_run cfgW (ExecResult.completed 2 ("boom")) none fsW).result
      = Except.error (PyError.calledProcessError 2 ("boom")) :=
  (C3_nonzero_exit_error cfgW none fsW 2 ("boom") (by decide)).1

/-- C4: `run()` raises the generic `RunError` in exactly two cases:
(a) the program cannot be launched or communicated with at the OS level,
where the error wraps the OS error text and no exit-code-based error is
raised; (b) the exit code is 0 and the failure predicate returns a
non-empty message `M`, where the payload equals exactly `M`. Conversely,
every `RunError` raised by `run()` arises from one of these two cases. -/
theorem C4_generic_run_error_cases (cfg : Config) (st : FS) :
    (∀ e ifr,
      (Executor_run cfg (ExecResult.osError e) ifr st).result
        = Except.error (PyError.runError
            ("Couldn\x27t run or communicate with external program: " ++ e))
      ∧ ∀ c o, (Executor_run cfg (ExecResult.osError e) ifr st).result
          ≠ Except.error (PyError.calledProcessError c o))
    ∧ (∀ out M, M ≠ "" →
        (Executor_run cfg (ExecResult.completed 0 out) (some M) st).result
          = Except.error (PyError.runError M))
    ∧ (∀ exec ifr m,
        (Executor_run cfg exec ifr st).result
            = Except.error (PyError.runError m) →
        (∃ e, exec = ExecResult.osError e)
        ∨ (∃ o, exec = ExecResult.completed 0 o ∧ truthyMsg ifr = true)) := by
  refine ⟨?_, ?_, ?_⟩
  · intro e ifr
    constructor
    · simp [Executor_run, Executor_runWith]
    · intro c o
      simp [Executor_run, Executor_runWith]
  · intro out M hM
    simp [Executor_run, Executor_runWith, Executor_fail, truthyMsg, hM]
  · intro exec ifr m h
    cases exec with
    | osError e => exact Or.inl ⟨e, rfl⟩
    | memError =>
        exfalso
        simp [Executor_run, Executor_runWith, Executor_fail, truthyMsg] at h
    | completed rc out =>
        by_cases h0 : rc = 0
        · subst h0
          by_cases ht : truthyMsg ifr = true
          · exact Or.inr ⟨out, rfl, ht⟩
          · exfalso
            simp [Executor_run, Executor_runWith, Executor_finish, ht] at h
        · exfalso
          simp [Executor_run, Executor_runWith, Executor_fail, truthyMsg,
            h0] at h

/-- Witness for C4: the OS-level case and the domain-failure case at
concrete inputs. -/
theorem C4_generic_run_error_cases_witness :
    (Executor_run cfgW (ExecResult.osError ("No such file or directory"))
        none fsW).result
      = Except.error (PyError.runError
          ("Couldn\x27t run or communicate with external program: "
            ++ "No such file or directory"))
    ∧ (Executor_run cfgW (ExecResult.completed 0 ("weird output"))
        (some ("The output is not as expected")) fsW).result
      = Except.error (PyError.runError ("The output is not as expected")) :=
  ⟨((C4_generic_run_error_cases cfgW fsW).1 ("No such file or directory")
      none).1,
   (C4_generic_run_error_cases cfgW fsW).2.1 ("weird output")
      ("The output is not as expected") (by decide)⟩

/-- C5: for every invocation, after `run()` returns or raises, the cleanup
step has executed exactly once regardless of which prior step failed, and
the temporary directory (which the lifecycle guarantees to exist after
`prepare`) exists afterwards if and only if `keep_tempdir` was true. -/
theorem C5_cleanup_always_once (cfg : Config) (exec : ExecResult)
    (ifr : Option String) (st : FS) :
    (Executor_run cfg exec ifr st).trace.count Event.cleanup = 1
    ∧ (Executor_run cfg exec ifr st).fs.tempdirExists = cfg.keep_tempdir :=
  runWith_cleanup_props Executor_finish tempdirExists_after_finish
    cfg exec ifr st

/-- C9: for every invocation with output capture enabled whose program
exits 0 and whose failure predicate reports no failure, `run()` returns
the `(args, 0, stdout)` triple and the capture file — named
`<program>.out` for the default policy, or the caller-supplied name —
holds exactly the captured combined output. -/
theorem C9_capture_file_written (cfg : Config) (ifr : Option String)
    (out : String) (st : FS) (hc : cfg.catch_out.truthy = true)
    (hf : truthyMsg ifr = false) :
    (Executor_run cfg (ExecResult.completed 0 out) ifr st).result
      = Except.ok (cfg.args, 0, out)
    ∧ (Executor_run cfg (ExecResult.completed 0 out) ifr st).fs.outFile
      = some (cfg.f_stdout, out)
    ∧ (cfg.catch_out = CatchOut.on → cfg.f_stdout = cfg.program ++ ".out")
    ∧ (∀ s, cfg.catch_out = CatchOut.named s → cfg.f_stdout = s) := by
  have hf2 : ¬ truthyMsg ifr = true := by simp [hf]
  refine ⟨?_, ?_, ?_, ?_⟩
  · simp [Executor_run, Executor_runWith, Executor_finish, hf2]
  · have hfs : (Executor_run cfg (ExecResult.completed 0 out) ifr st).fs
        = Executor_cleanup cfg
            ((Executor_finish cfg 0 out (Executor_prepare cfg st)).2) := by
      simp [Executor_run, Executor_runWith, hf2]
    rw [hfs, outFile_after_cleanup]
    simp [Executor_finish, hc]
  · intro h
    simp [Config.f_stdout, h]
  · intro s h
    simp [Config.f_stdout, h]

/-- Witness for C9 at a concrete invocation capturing the output of `ls`. -/
theorem C9_capture_file_written_witness :
    (Executor_run cfgW
        (ExecResult.completed 0 ("test1.txt\ntest2.txt\ntest3.txt\n"))
        none fsW).result
      = Except.ok (cfgW.args, 0, "test1.txt\ntest2.txt\ntest3.txt\n")
    ∧ (Executor_run cfgW
        (ExecResult.completed 0 ("test1.txt\ntest2.txt\ntest3.txt\n"))
        none fsW).fs.outFile
      = some (cfgW.f_stdout, "test1.txt\ntest2.txt\ntest3.txt\n") :=
  ⟨(C9_capture_file_written cfgW none ("test1.txt\ntest2.txt\ntest3.txt\n")
      fsW (by decide) (by decide)).1,
   (C9_capture_file_written cfgW none ("test1.txt\ntest2.txt\ntest3.txt\n")
      fsW (by decide) (by decide)).2.1⟩

/-- C10: when the caller supplies a temporary directory that already exists
before `run()` and `keep_tempdir` is false, cleanup deletes it all the
same; removal is keyed only on the keep flag and the directory\x27s
existence, never on whether the lifecycle created the directory itself. -/
theorem C10_preexisting_tempdir_removed (cfg : Config) (exec : ExecResult)
    (ifr : Option String) (st : FS) (hgiven : cfg.tempdir_given = true)
    (hpre : st.tempdirExists = true) (hkeep : cfg.keep_tempdir = false) :
    (Executor_run cfg exec ifr st).fs.tempdirExists = false
    ∧ ∀ st2 : FS, (Executor_cleanup cfg st2).tempdirExists
        = (st2.tempdirExists && cfg.keep_tempdir) := by
  constructor
  · show (Executor_runWith Executor_finish cfg exec ifr st).fs.tempdirExists
      = false
    rw [(runWith_cleanup_props Executor_finish tempdirExists_after_finish
      cfg exec ifr st).2]
    exact hkeep
  · intro st2
    unfold Executor_cleanup
    rcases st2 with ⟨te, de, f⟩
    cases te <;> cases hk : cfg.keep_tempdir <;> simp [hk]

/-- Witness for C10: a pre-existing caller-supplied temporary directory is
removed after a successful run with `keep_tempdir = false`. -/
theorem C10_preexisting_tempdir_removed_witness :
    (Executor_run cfgW2 (ExecResult.completed 0 ("")) none fsW2).fs.tempdirExists
      = false :=
  (C10_preexisting_tempdir_removed cfgW2 (ExecResult.completed 0 (""))
    none fsW2 (by decide) (by decide) (by decide)).1

/-- C7: on successful submission (exit code 0, no domain failure),
`IbexRun.finish` makes `run()` return the first contiguous run of decimal
digits of the captured submission reply as the job identifier; when the
reply contains no digit at all, `re.search` returns `None` and the
`.group()` call raises (`AttributeError`), so `run()` fails rather than
silently returning an empty or null identifier. -/
theorem C7_job_id_extraction (cfg : Config) (st : FS) (out : String) :
    (∀ ds, firstDigitRun out.toList = some ds →
      (IbexRun_run cfg (ExecResult.completed 0 out) st).result
        = Except.ok (String.mk ds))
    ∧ (firstDigitRun out.toList = none →
      (IbexRun_run cfg (ExecResult.completed 0 out) st).result
        = Except.error PyError.attributeError
      ∧ ∀ s, (IbexRun_run cfg (ExecResult.completed 0 out) st).result
          ≠ Except.ok s) := by
  constructor
  · intro ds h
    simp only [String.toList] at h
    simp [IbexRun_run, Executor_runWith, IbexRun_finish, truthyMsg, h]
  · intro h
    simp only [String.toList] at h
    constructor
    · simp [IbexRun_run, Executor_runWith, IbexRun_finish, truthyMsg, h]
    · intro s
      simp [IbexRun_run, Executor_runWith, IbexRun_finish, truthyMsg, h]

/-- Witness for C7: a concrete submission reply yields its first digit run
as the job identifier. -/
theorem C7_job_id_extraction_witness :
    (IbexRun_run cfgW
        (ExecResult.completed 0 ("Submitted batch job 31415")) fsW).result
      = Except.ok (String.mk (("31415").toList)) :=
  (C7_job_id_extraction cfgW fsW ("Submitted batch job 31415")).1
    (("31415").toList) (by decide)

set_option maxRecDepth 8192 in
/-- C8: for every successfully constructed `IbexRun`, `prepare` writes to
the fixed path `<out_ibex>/script.sh` a script whose header directives
appear in this exact order — job name, partition, output path template
containing the scheduler-substituted token `%J`, time budget in
`HH:MM:SS`, task count, cpus-per-task, memory-per-cpu suffixed `G`, and an
array range reading `0-<slot_count - 1>` — followed by a blank line and
then the body text. -/
theorem C8_script_layout (p : IbexParams) (d : IbexRunData)
    (h : mkIbexRun p = some d) :
    ibexPrepareWrite d = (p.out_ibex ++ "/script.sh", ibexScript d)
    ∧ ibexScript d = "#!/bin/bash\n"
        ++ (scriptDirectives d).foldr (fun l acc => l ++ "\n" ++ acc)
            ("\n" ++ "echo \x27Hello world!\x27\n")
    ∧ (∃ pre post, (scriptDirectives d).getD 2 ("") = pre ++ "%J" ++ post)
    ∧ d.time_per_job = time_str d.commands_per_job p.time_per_command
    ∧ (scriptDirectives d).getD 7 ("")
        = "#SBATCH --array=0-" ++ toString (d.njobs - 1) := by
  simp only [mkIbexRun] at h
  split at h
  · exact Option.noConfusion h
  · split at h
    · exact Option.noConfusion h
    · rw [Option.some.injEq] at h
      subst h
      refine ⟨rfl, ?_, ?_, rfl, rfl⟩
      · apply String.ext
        simp [ibexScript, scriptDirectives, String.data_append,
          List.append_assoc]
      · refine ⟨"#SBATCH --output=" ++ p.out_ibex ++ "/", ".out", ?_⟩
        have e1 : ("/%J.out" : String) = "/" ++ "%J" ++ ".out" := rfl
        show "#SBATCH --output=" ++ p.out_ibex ++ "/%J.out" = _
        rw [e1]
        apply String.ext
        simp [String.data_append, List.append_assoc]

/-- Witness for C8 at the concrete input `pOne` (one command): the write
target and the directive lines at a fully evaluated plan. -/
theorem C8_script_layout_witness :
    ibexPrepareWrite dOne = (pOne.out_ibex ++ "/script.sh", ibexScript dOne)
    ∧ (scriptDirectives dOne).getD 7 ("")
        = "#SBATCH --array=0-" ++ toString (dOne.njobs - 1) :=
  ⟨(C8_script_layout pOne dOne (by decide)).1,
   (C8_script_layout pOne dOne (by decide)).2.2.2.2⟩
